import Mathlib

/-!
Shallow embedding of the BookaDoc conversational appointment-booking backend
(`backend/app`), covering the parts exercised by the verified claims:

* the patient-info merge performed by `OrchestratorAgent._gather_info_node`;
* the lenient oracle-response parsing of `ReceptionistAgent.extract_information`;
* the slot parsing and attempt counting of `_await_selection_node` and
  `_parse_slot_selection`;
* the per-turn dispatcher `_route_and_process` / `process_message` together
  with `_initialize_state` and `_create_error_state`;
* the persistence-facing operations of `AppointmentService`
  (`create_appointment`, `_is_slot_available`, `get_available_slots`) and
  `ConfirmationAgent.finalize_appointment` / `_finalize_node`.

Modelling conventions:

* Python dicts keyed by the fixed `StateKeys` are modelled as a structure; a
  key that is absent, or present with value `None`, is modelled as `none`
  (all reads in the source go through `dict.get`, which does not distinguish
  a missing key from most of these defaults for the claims at hand).
* Calendar dates are natural numbers counting days from an epoch Monday, so
  Python `date.weekday()` is `d % 7` and `date + timedelta(days=k)` is
  `d + k`.  Times of day are minutes after midnight, so `time(h, 0)` is
  `60 * h`; this encoding preserves equality and order of the values the
  program manipulates.
* The MongoDB `appointments` collection is a list of records; the generated
  `_id` is modelled by the insertion index.  The database is assumed
  connected (the `collection is None` guard branches are not taken).
* The external JSON parser (`json.loads`) and the oracle text generators are
  taken as parameters: the embedding is faithful to everything computed
  locally by the source.
-/

namespace BookaDoc

/-! ### Patient information and the merge of `_gather_info_node` -/

/-- The six fields requested by `ReceptionistAgent.extract_information`. -/
inductive InfoField
  | patientName
  | patientPhone
  | reason
  | doctorPreference
  | preferredDate
  | preferredTime
deriving DecidableEq

/-- A patient-info dict: each known field is either absent/`None` (`none`)
or bound to a string value. -/
abbrev PatientInfo : Type := InfoField → Option String

/-- Python truthiness of a dict value in this codebase: `None` and the empty
string are falsy, every other string is truthy. -/
def pyTruthy : Option String → Bool
  | none => false
  | some s => !(s == "")

/-- The merge loop of `_gather_info_node` (orchestrator.py lines 141-148):
start from the existing info and overwrite a field exactly when the newly
extracted value is truthy (`if value:`). -/
def mergePatientInfo (current extracted : PatientInfo) : PatientInfo :=
  fun k => if pyTruthy (extracted k) then extracted k else current k

/-- The empty extraction result (`return {}` in `extract_information`). -/
def noExtractedInfo : PatientInfo := fun _ => none

/-! ### String helpers mirroring the Python operations used by the source -/

/-- `needle` is a prefix of `hay` (character lists). -/
def listStartsWith : List Char → List Char → Bool
  | [], _ => true
  | _ :: _, [] => false
  | c :: cs, d :: ds => c == d && listStartsWith cs ds

/-- `needle in hay` for character lists (Python substring containment). -/
def listHasSub (needle : List Char) : List Char → Bool
  | [] => needle.isEmpty
  | c :: t => listStartsWith needle (c :: t) || listHasSub needle t

/-- Python `needle in hay` on strings. -/
def hasSubstr (needle hay : String) : Bool :=
  listHasSub needle.data hay.data

/-- Splits a character list at the first occurrence of `sep`, returning the
parts before and after it, or `none` when `sep` does not occur. -/
def splitFirstAux (sep : List Char) : List Char → List Char → Option (List Char × List Char)
  | [], acc => if listStartsWith sep [] then some (acc.reverse, []) else none
  | c :: t, acc =>
    if listStartsWith sep (c :: t) then some (acc.reverse, (c :: t).drop sep.length)
    else splitFirstAux sep t (c :: acc)

/-- Splits a string at the first occurrence of `sep`. -/
def splitFirst (sep s : String) : Option (String × String) :=
  match splitFirstAux sep.data s.data [] with
  | some (pre, post) => some (String.mk pre, String.mk post)
  | none => none

/-- Python `s.split(sep)[0]`: the part before the first occurrence of `sep`
(the whole string when `sep` is absent). -/
def pyBeforeFirst (sep s : String) : String :=
  match splitFirst sep s with
  | some (pre, _) => pre
  | none => s

/-- The part of `s` after the first occurrence of `sep` (used only under a
`sep in s` guard, mirroring `s.split(sep)[1]`; truncation at the following
fence happens separately and yields the same result as Python's
segment-between-separators semantics, since every later `"```json"`
occurrence itself starts with `"```"`). -/
def pyAfterFirst (sep s : String) : String :=
  match splitFirst sep s with
  | some (_, post) => post
  | none => ""

/-- Removes leading and trailing whitespace from a character list. -/
def stripChars (l : List Char) : List Char :=
  ((l.dropWhile Char.isWhitespace).reverse.dropWhile Char.isWhitespace).reverse

/-- Python `s.strip()`. -/
def pyStrip (s : String) : String := String.mk (stripChars s.data)

/-- Python `s.lower().strip()` as applied to user messages. -/
def pyLowerStrip (s : String) : String := pyStrip (String.mk (s.data.map Char.toLower))

/-! ### `ReceptionistAgent.extract_information` (receptionist_agent.py 27-79) -/

/-- The fenced-code-block unwrapping applied to the oracle response before
JSON parsing: strip, then cut out the content of a ```` ```json ```` or
```` ``` ```` fence when one is present. -/
def unwrapOracleResponse (raw : String) : String :=
  let content := pyStrip raw
  if hasSubstr "```json" content then
    pyStrip (pyBeforeFirst "```" (pyAfterFirst "```json" content))
  else if hasSubstr "```" content then
    pyStrip (pyBeforeFirst "```" (pyAfterFirst "```" content))
  else content

/-- `extract_information`, with the external `json.loads` abstracted as
`jsonLoads` (returning `none` on any parse failure).  Any failure is caught
by the surrounding `try`/`except`, which returns the empty dict. -/
def extractInformation (jsonLoads : String → Option PatientInfo)
    (oracleResponse : String) : PatientInfo :=
  match jsonLoads (unwrapOracleResponse oracleResponse) with
  | some fields => fields
  | none => noExtractedInfo

/-! ### Appointment persistence (`AppointmentService`, appointment_service.py) -/

/-- `AppointmentStatus` (models/appointment.py). -/
inductive AppointmentStatus
  | pending
  | scheduled
  | confirmed
  | cancelled
  | completed
deriving DecidableEq

/-- A stored appointment document (the fields relevant to the claims). -/
structure StoredAppointment where
  appointment_id : String
  patient_name : String
  patient_phone : String
  appointment_date : Nat
  appointment_time : Nat
  doctor_id : String
  doctor_name : String
  reason : String
  status : AppointmentStatus
deriving DecidableEq

/-- The `appointments` collection. -/
abbrev Store : Type := List StoredAppointment

/-- `_is_slot_available` (appointment_service.py 273-301): no stored
appointment for the same doctor, date and time in status `scheduled` or
`confirmed`. -/
def isSlotAvailable (store : Store) (d t : Nat) (doctorId : String) : Bool :=
  !(store.any fun a =>
    a.doctor_id == doctorId && a.appointment_date == d && a.appointment_time == t &&
      (a.status == .scheduled || a.status == .confirmed))

/-- The response of `create_appointment`. -/
structure AppointmentResponse where
  success : Bool
  appointment : Option StoredAppointment
deriving DecidableEq

/-- `create_appointment` (appointment_service.py 30-101): availability check,
then insertion with status `scheduled`.  The Mongo-generated `_id` is
modelled by the insertion index. -/
def createAppointment (store : Store) (patientName patientPhone : String)
    (appointmentDate appointmentTime : Nat) (doctorId doctorName reason : String) :
    Store × AppointmentResponse :=
  if isSlotAvailable store appointmentDate appointmentTime doctorId then
    let appt : StoredAppointment :=
      { appointment_id := "appt-" ++ toString (List.length store)
        patient_name := patientName
        patient_phone := patientPhone
        appointment_date := appointmentDate
        appointment_time := appointmentTime
        doctor_id := doctorId
        doctor_name := doctorName
        reason := reason
        status := .scheduled }
    (store ++ [appt], { success := true, appointment := some appt })
  else
    (store, { success := false, appointment := none })

/-- `update_appointment_status` (appointment_service.py 141-194), restricted
to the status change it performs.  (In `finalize_appointment` the source
calls this coroutine without `await`, so there it never actually runs.) -/
def updateAppointmentStatus (store : Store) (appointmentId : String)
    (status : AppointmentStatus) : Store × Bool :=
  if store.any (fun a => a.appointment_id == appointmentId) then
    (store.map fun a => if a.appointment_id == appointmentId then { a with status := status } else a,
      true)
  else (store, false)

/-- `settings.CLINIC_OPEN_HOUR` (config.py). -/
def CLINIC_OPEN_HOUR : Nat := 9

/-- `settings.CLINIC_CLOSE_HOUR` (config.py). -/
def CLINIC_CLOSE_HOUR : Nat := 17

/-- An available appointment slot (models/appointment.py `AppointmentSlot`;
the random `slot_id` is not modelled, it is unused by the claims). -/
structure AppointmentSlot where
  date : Nat
  start_time : Nat
  end_time : Nat
  doctor_name : String
  doctor_id : String
  is_available : Bool
deriving DecidableEq

/-- The slot built for hour `h` of day `d` in `get_available_slots`. -/
def mkClinicSlot (doctorId doctorName : String) (d h : Nat) : AppointmentSlot :=
  { date := d
    start_time := 60 * h
    end_time := 60 * ((h + 1) % 24)
    doctor_name := doctorName
    doctor_id := doctorId
    is_available := true }

/-- Ascending (date, start time) ordering on slots. -/
def slotOrd (s1 s2 : AppointmentSlot) : Prop :=
  s1.date < s2.date ∨ (s1.date = s2.date ∧ s1.start_time < s2.start_time)

/-- The inner per-day loop of `get_available_slots`: skip weekends
(`weekday() >= 5`), then one slot per whole hour from the open hour up to
but excluding the close hour, keeping only available ones. -/
def daySlots (store : Store) (doctorId doctorName : String) (d : Nat) : List AppointmentSlot :=
  if 5 ≤ d % 7 then []
  else
    ((List.range' CLINIC_OPEN_HOUR (CLINIC_CLOSE_HOUR - CLINIC_OPEN_HOUR)).filter
        (fun h => isSlotAvailable store d (60 * h) doctorId)).map
      (mkClinicSlot doctorId doctorName d)

/-- `get_available_slots` (appointment_service.py 203-242). -/
def getAvailableSlots (store : Store) (doctorId doctorName : String)
    (startDate numDays : Nat) : List AppointmentSlot :=
  (List.range numDays).flatMap fun dayOffset => daySlots store doctorId doctorName (startDate + dayOffset)

/-! ### Confirmation agent (`confirmation_agent.py`) -/

/-- A doctor record as returned by `doctor_service.get_doctor_by_id`. -/
structure Doctor where
  doctor_id : String
  name : String
deriving DecidableEq

/-- `ConfirmationAgent.finalize_appointment` (confirmation_agent.py 85-142):
look up the doctor, create the appointment, and on success return the
appointment.  The source then calls
`appointment_service.update_appointment_status(id, CONFIRMED)` WITHOUT
awaiting the coroutine, so that update never executes and the store keeps
the freshly created appointment in status `scheduled`.  A missing selected
slot or missing required patient fields raise inside the agent's `try` and
are returned as `none`. -/
def finalizeAppointment (doctors : List Doctor) (store : Store)
    (patientInfo : PatientInfo) (selectedSlot : Option AppointmentSlot) :
    Store × Option StoredAppointment :=
  match selectedSlot, patientInfo InfoField.patientName,
      patientInfo InfoField.patientPhone, patientInfo InfoField.reason with
  | some slot, some pn, some pp, some rs =>
    match doctors.find? (fun d => d.doctor_id == slot.doctor_id) with
    | none => (store, none)
    | some doc =>
      let created := createAppointment store pn pp slot.date slot.start_time
        doc.doctor_id ("Dr. " ++ doc.name) rs
      match created.2.appointment with
      | some appt => (created.1, some appt)
      | none => (created.1, none)
  | _, _, _, _ => (store, none)

/-! ### Orchestrator state (`orchestrator.py`) -/

/-- `WorkflowState` (orchestrator.py 15-24). -/
inductive WorkflowState
  | start
  | gathering_info
  | finding_slots
  | presenting_slots
  | awaiting_selection
  | confirming
  | completed
  | error
deriving DecidableEq

/-- `AgentType` (models/conversation.py). -/
inductive AgentType
  | orchestrator
  | receptionist
  | scheduler
  | confirmation
  | system
deriving DecidableEq

/-- The per-turn state dict keyed by `StateKeys`.  `none` models an absent
key (or a `None` value, which all reads treat alike). -/
structure OrchState where
  user_message : String
  conversation_history : Option (List (String × String))
  patient_info : Option PatientInfo
  available_slots : Option (List AppointmentSlot)
  selected_slot : Option AppointmentSlot
  workflow_state : WorkflowState
  current_agent : AgentType
  agent_response : Option String
  has_required_info : Bool
  awaiting_confirmation : Bool
  appointment_id : Option String
  error : Option String
  slot_selection_attempts : Nat

/-- Fixed response of `_create_error_state`. -/
def errorResetResponse : String :=
  "I apologize, but I encountered an error. Let\x27s start over. What can I help you with today?"

/-- Static response of the COMPLETED branch of `_route_and_process`. -/
def completedResponse : String :=
  "Your appointment has been confirmed! Is there anything else I can help you with?"

/-- Response on the third failed selection attempt. -/
def retryPresentResponse : String :=
  "I\x27m having trouble understanding your selection. Let me show you the available slots again."

/-- Fallback clarifying prompt in `_await_selection_node`. -/
def defaultSelectPrompt : String :=
  "Please select a slot by entering its number (e.g., 1, 2, 3)."

/-- `_parse_slot_selection` message for an empty slot list. -/
def noSlotsResponse : String := "No slots available to select from."

/-- `_parse_slot_selection` message when no digit is found. -/
def enterNumberResponse : String :=
  "Please enter the number of the slot you\x27d like to book."

/-- `_parse_slot_selection` message for an out-of-range number. -/
def rangeResponse (n : Nat) : String :=
  "Please select a number between 1 and " ++ toString n ++ "."

/-- `_finalize_node` message when appointment creation fails. -/
def bookingFailedResponse : String :=
  "I\x27m sorry, there was an error creating your appointment. Please try again or contact support."

/-- `_finalize_node` message on rejection. -/
def rejectionResponse : String :=
  "No problem! Would you like to select a different time slot?"

/-- `_finalize_node` re-prompt when the reply is neither yes nor no. -/
def reconfirmResponse : String :=
  "I didn\x27t catch that. Please reply \x27yes\x27 to confirm or \x27no\x27 to choose a different time."

/-- The confirmation keyword list of `_is_confirmation`. -/
def confirmationWords : List String :=
  ["yes", "confirm", "ok", "sure", "correct", "right", "yep", "yeah", "y"]

/-- The rejection keyword list of `_is_rejection`. -/
def rejectionWords : List String :=
  ["no", "nope", "cancel", "different", "change", "n"]

/-- `_is_confirmation`: substring match of any confirmation word. -/
def isConfirmationMsg (message : String) : Bool :=
  confirmationWords.any fun w => hasSubstr w message

/-- `_is_rejection`: substring match of any rejection word. -/
def isRejectionMsg (message : String) : Bool :=
  rejectionWords.any fun w => hasSubstr w message

/-- `_parse_slot_selection` (orchestrator.py 336-358): collect the digit
characters of the message (`int(char) for char in user_message if
char.isdigit()`), take the first one, subtract one, and bounds-check. -/
def parseSlotSelection (userMessage : String) (slots : List AppointmentSlot) :
    Option AppointmentSlot × Option String :=
  if slots.isEmpty then (none, some noSlotsResponse)
  else
    match (userMessage.data.filter Char.isDigit).map (fun c => ((c.toNat : Int) - 48)) with
    | [] => (none, some enterNumberResponse)
    | n :: _ =>
      let slotNum : Int := n - 1
      if 0 ≤ slotNum ∧ slotNum < (slots.length : Int) then (slots[slotNum.toNat]?, none)
      else (none, some (rangeResponse slots.length))

/-- `_await_selection_node` (orchestrator.py 231-260). -/
def awaitSelectionNode (st : OrchState) : OrchState :=
  let userMessage := pyLowerStrip st.user_message
  let slots := st.available_slots.getD []
  let parsed := parseSlotSelection userMessage slots
  match parsed.1 with
  | some slot =>
    { st with selected_slot := some slot, workflow_state := .confirming,
              current_agent := .confirmation }
  | none =>
    let attempts := st.slot_selection_attempts + 1
    if 3 ≤ attempts then
      { st with slot_selection_attempts := attempts,
                agent_response := some retryPresentResponse,
                workflow_state := .presenting_slots }
    else
      { st with slot_selection_attempts := attempts,
                agent_response := some (match parsed.2 with
                  | some e => if e == "" then defaultSelectPrompt else e
                  | none => defaultSelectPrompt),
                workflow_state := .awaiting_selection }

/-- `_finalize_node` (orchestrator.py 291-334), with the success-message
formatter (`create_success_message`, pure date rendering) abstracted. -/
def finalizeNode (successMessage : StoredAppointment → String) (doctors : List Doctor)
    (store : Store) (st : OrchState) : Store × OrchState :=
  let msg := pyLowerStrip st.user_message
  if isConfirmationMsg msg then
    let fin := finalizeAppointment doctors store (st.patient_info.getD noExtractedInfo)
      st.selected_slot
    match fin.2 with
    | some appt =>
      (fin.1, { st with agent_response := some (successMessage appt),
                        workflow_state := .completed,
                        appointment_id := some appt.appointment_id })
    | none =>
      (fin.1, { st with agent_response := some bookingFailedResponse,
                        workflow_state := .error })
  else if isRejectionMsg msg then
    (store, { st with agent_response := some rejectionResponse,
                      workflow_state := .awaiting_selection,
                      awaiting_confirmation := false })
  else
    (store, { st with agent_response := some reconfirmResponse,
                      workflow_state := .confirming })

/-- `_initialize_state` (orchestrator.py 444-457).  Note it carries over
neither `appointment_id` nor `agent_response` nor `error`. -/
def initState (userMessage : String) (ctx : OrchState) : OrchState :=
  { user_message := userMessage
    conversation_history := some (ctx.conversation_history.getD [])
    patient_info := some (ctx.patient_info.getD noExtractedInfo)
    available_slots := some (ctx.available_slots.getD [])
    selected_slot := ctx.selected_slot
    workflow_state := ctx.workflow_state
    current_agent := ctx.current_agent
    agent_response := none
    has_required_info := ctx.has_required_info
    awaiting_confirmation := ctx.awaiting_confirmation
    appointment_id := none
    error := none
    slot_selection_attempts := ctx.slot_selection_attempts }

/-- `_create_error_state` (orchestrator.py 497-506): a fresh dict holding
only the apology response, phase START, agent RECEPTIONIST, the error text
and the two cleared flags. -/
def createErrorState (errorMessage : String) : OrchState :=
  { user_message := ""
    conversation_history := none
    patient_info := none
    available_slots := none
    selected_slot := none
    workflow_state := .start
    current_agent := .receptionist
    agent_response := some errorResetResponse
    has_required_info := false
    awaiting_confirmation := false
    appointment_id := none
    error := some errorMessage
    slot_selection_attempts := 0 }

/-- The node implementations that call external collaborators (oracle,
persistence); `_route_and_process` is proved for every such implementation. -/
structure NodeImpls where
  gatherInfoNode : OrchState → OrchState
  findSlotsNode : OrchState → OrchState
  presentSlotsNode : OrchState → OrchState
  confirmNode : OrchState → OrchState
  finalizeNodeImpl : OrchState → OrchState

/-- Trivial node implementations, used to evaluate dispatcher paths that
never reach any node. -/
def idNodes : NodeImpls := ⟨id, id, id, id, id⟩

/-- `_route_and_process` (orchestrator.py 459-495): dispatch on the current
workflow state; `_await_selection_node` is pure and embedded concretely. -/
def routeAndProcess (nodes : NodeImpls) (st : OrchState) : OrchState :=
  match st.workflow_state with
  | .start | .gathering_info =>
    let r := nodes.gatherInfoNode st
    if r.has_required_info then
      let r2 := nodes.findSlotsNode r
      if r2.workflow_state = .presenting_slots then nodes.presentSlotsNode r2 else r2
    else r
  | .awaiting_selection =>
    let r := awaitSelectionNode st
    if r.workflow_state = .confirming then nodes.confirmNode r else r
  | .confirming => nodes.finalizeNodeImpl st
  | .completed => { st with agent_response := some completedResponse }
  | .finding_slots => createErrorState "Unexpected workflow state"
  | .presenting_slots => createErrorState "Unexpected workflow state"
  | .error => createErrorState "Unexpected workflow state"

/-- `process_message` (orchestrator.py 411-442): initialize the working
state from the durable context, then dispatch. -/
def processMessage (nodes : NodeImpls) (userMessage : String) (ctx : OrchState) : OrchState :=
  routeAndProcess nodes (initState userMessage ctx)

/-! ### Spec-side definition and concrete sample data -/

/-- Spec-side definition, following the spec's words only (for comparison
with `parseSlotSelection`): "the first run of digits found anywhere in the
message, converted to an integer". -/
def specFirstDigitRun (s : String) : Option Nat :=
  let run := (s.data.dropWhile (fun c => !c.isDigit)).takeWhile Char.isDigit
  if run.isEmpty then none
  else some (run.foldl (fun acc c => 10 * acc + (c.toNat - 48)) 0)

/-- Sample patient info holding only a name. -/
def johnInfo : PatientInfo :=
  fun k => if k = InfoField.patientName then some "John" else none

/-- A sample extraction result carrying the literal "null" sentinel for the
name field. -/
def nullNameExtract : PatientInfo :=
  fun k => if k = InfoField.patientName then some "null" else none

/-- Complete required patient info. -/
def fullInfo : PatientInfo :=
  fun k =>
    match k with
    | InfoField.patientName => some "Aisha Khan"
    | InfoField.patientPhone => some "9876543210"
    | InfoField.reason => some "skin rash"
    | _ => none

/-- A sample slot: day 7 (a Monday) at 09:00. -/
def slotA : AppointmentSlot :=
  { date := 7, start_time := 540, end_time := 600, doctor_name := "Dr. Rao",
    doctor_id := "doc-1", is_available := true }

/-- A sample slot: day 7 (a Monday) at 10:00. -/
def slotB : AppointmentSlot :=
  { date := 7, start_time := 600, end_time := 660, doctor_name := "Dr. Rao",
    doctor_id := "doc-1", is_available := true }

/-- A sample doctor matching `slotA`/`slotB`. -/
def drRao : Doctor := { doctor_id := "doc-1", name := "Rao" }

/-- A durable context waiting for a slot selection, with two failed
attempts already recorded. -/
def ctxAwaitTwoFails : OrchState :=
  { user_message := ""
    conversation_history := some []
    patient_info := some johnInfo
    available_slots := some [slotA, slotB]
    selected_slot := none
    workflow_state := .awaiting_selection
    current_agent := .scheduler
    agent_response := none
    has_required_info := true
    awaiting_confirmation := false
    appointment_id := none
    error := none
    slot_selection_attempts := 2 }

/-- A durable context whose phase is FINDING_SLOTS. -/
def ctxFindingSlots : OrchState :=
  { user_message := ""
    conversation_history := some []
    patient_info := some johnInfo
    available_slots := some []
    selected_slot := none
    workflow_state := .finding_slots
    current_agent := .scheduler
    agent_response := none
    has_required_info := true
    awaiting_confirmation := false
    appointment_id := none
    error := none
    slot_selection_attempts := 0 }

/-- A durable context of a completed booking, with a recorded appointment
id. -/
def ctxCompletedBooked : OrchState :=
  { user_message := ""
    conversation_history := some []
    patient_info := some johnInfo
    available_slots := some [slotA]
    selected_slot := some slotA
    workflow_state := .completed
    current_agent := .confirmation
    agent_response := none
    has_required_info := true
    awaiting_confirmation := false
    appointment_id := some "appt-0"
    error := none
    slot_selection_attempts := 0 }

/-- A confirming-phase working state whose user replied "yes". -/
def ctxConfirmYes : OrchState :=
  { user_message := "yes"
    conversation_history := some []
    patient_info := some fullInfo
    available_slots := some [slotA, slotB]
    selected_slot := some slotA
    workflow_state := .confirming
    current_agent := .confirmation
    agent_response := none
    has_required_info := true
    awaiting_confirmation := true
    appointment_id := none
    error := none
    slot_selection_attempts := 0 }

/-! ## Theorems -/

/-- C7: the patient-info merge of `_gather_info_node` is idempotent
(`merge(merge(a,b),b) = merge(a,b)`) and associative
(`merge(merge(a,b),c) = merge(a,merge(b,c))`). -/
theorem mergePatientInfo_idem_assoc (a b c : PatientInfo) :
    mergePatientInfo (mergePatientInfo a b) b = mergePatientInfo a b ∧
      mergePatientInfo (mergePatientInfo a b) c = mergePatientInfo a (mergePatientInfo b c) := by
  constructor <;> funext k <;>
    cases hb : pyTruthy (b k) <;> cases hc : pyTruthy (c k) <;>
      simp [mergePatientInfo, hb, hc]

/-- C5 counterexample: the merge of `_gather_info_node` only tests Python
truthiness (`if value:`), so the truthy literal string "null" DOES
overwrite an existing field, contrary to the claim that a value equal to
the "null" sentinel never replaces an existing one. -/
theorem merge_null_sentinel_overwrites :
    johnInfo InfoField.patientName = some "John" ∧
      nullNameExtract InfoField.patientName = some "null" ∧
      mergePatientInfo johnInfo nullNameExtract InfoField.patientName = some "null" := by
  refine ⟨rfl, rfl, by decide⟩

/-- C5 amended: a field of the existing info is replaced exactly when the
extracted value is truthy (non-`None`, non-empty) — with no exception for
the literal "null" string — and a field that was `some` never becomes
`none`. -/
theorem mergePatientInfo_overwrite_iff_truthy (a b : PatientInfo) (k : InfoField) :
    mergePatientInfo a b k = (if pyTruthy (b k) then b k else a k) ∧
      (mergePatientInfo a b k).isSome = ((a k).isSome || pyTruthy (b k)) := by
  refine ⟨rfl, ?_⟩
  cases hb : b k with
  | none => simp [mergePatientInfo, pyTruthy, hb]
  | some s =>
    by_cases hs : s = "" <;> simp [mergePatientInfo, pyTruthy, hb, hs]

/-- C9: when the (unwrapped, possibly fence-stripped) oracle response fails
to parse, `extract_information` returns the empty mapping, and merging that
empty mapping leaves the previously known patient info unchanged. -/
theorem extract_failure_keeps_prior_info (jsonLoads : String → Option PatientInfo)
    (oracleResponse : String) (info : PatientInfo)
    (h : jsonLoads (unwrapOracleResponse oracleResponse) = none) :
    extractInformation jsonLoads oracleResponse = noExtractedInfo ∧
      mergePatientInfo info (extractInformation jsonLoads oracleResponse) = info := by
  have he : extractInformation jsonLoads oracleResponse = noExtractedInfo := by
    simp [extractInformation, h]
  refine ⟨he, ?_⟩
  funext k
  simp [he, mergePatientInfo, noExtractedInfo, pyTruthy]

/-- Witness for C9 at a fenced, unparsable oracle response. -/
theorem extract_failure_keeps_prior_info_witness :
    ((fun _ => none : String → Option PatientInfo)
        (unwrapOracleResponse "```json\nnot json\n```") = none) ∧
      (extractInformation (fun _ => none) "```json\nnot json\n```" = noExtractedInfo ∧
        mergePatientInfo johnInfo
          (extractInformation (fun _ => none) "```json\nnot json\n```") = johnInfo) :=
  ⟨rfl, extract_failure_keeps_prior_info (fun _ => none) "```json\nnot json\n```" johnInfo rfl⟩

/-- C4 counterexample: on the message "12" with two presented slots the
first digit RUN is 12, whose 0-based index 11 is out of bounds, so the
claim predicts a failed selection; `_parse_slot_selection` instead takes
the first digit CHARACTER (1) and successfully selects the first slot. -/
theorem parse_digit_run_counterexample :
    specFirstDigitRun "12" = some 12 ∧
      ¬(((12 : Int) - 1) < (([slotA, slotB] : List AppointmentSlot).length : Int)) ∧
      (parseSlotSelection "12" [slotA, slotB]).1 = some slotA := by
  refine ⟨by decide, by decide, by decide⟩

/-- C4 amended: for a message containing at least one digit and a
non-empty presented list, the selected index is the FIRST DIGIT CHARACTER
of the message converted to an integer minus one, and the selection
succeeds exactly when that index is within bounds. -/
theorem parse_first_digit_char (msg : String) (slots : List AppointmentSlot)
    (d : Char) (rest : List Char)
    (hne : slots.isEmpty = false)
    (hd : msg.data.filter Char.isDigit = d :: rest) :
    (parseSlotSelection msg slots).1 =
      (if 0 ≤ ((d.toNat : Int) - 48) - 1 ∧ ((d.toNat : Int) - 48) - 1 < (slots.length : Int)
        then slots[(((d.toNat : Int) - 48) - 1).toNat]? else none) ∧
      ((parseSlotSelection msg slots).1.isSome ↔
        0 ≤ ((d.toNat : Int) - 48) - 1 ∧ ((d.toNat : Int) - 48) - 1 < (slots.length : Int)) := by
  have hp : parseSlotSelection msg slots =
      (if 0 ≤ ((d.toNat : Int) - 48) - 1 ∧ ((d.toNat : Int) - 48) - 1 < (slots.length : Int)
        then (slots[(((d.toNat : Int) - 48) - 1).toNat]?, none)
        else (none, some (rangeResponse slots.length))) := by
    simp [parseSlotSelection, hne, hd]
  constructor
  · rw [hp]
    split <;> rfl
  · rw [hp]
    split
    case isTrue h =>
      have hlt : ((d.toNat : Int) - 48).toNat - 1 < slots.length := by omega
      exact iff_of_true (by simp [List.getElem?_eq_getElem hlt]) h
    case isFalse h =>
      exact iff_of_false (by simp) h

/-- Witness for C4 amended: "2" against two slots selects the second one. -/
theorem parse_first_digit_char_witness :
    (([slotA, slotB] : List AppointmentSlot).isEmpty = false) ∧
      ("2".data.filter Char.isDigit = ['2']) ∧
      ((parseSlotSelection "2" [slotA, slotB]).1 =
        (if 0 ≤ (('2'.toNat : Int) - 48) - 1 ∧
            (('2'.toNat : Int) - 48) - 1 < (([slotA, slotB] : List AppointmentSlot).length : Int)
          then ([slotA, slotB] : List AppointmentSlot)[((('2'.toNat : Int) - 48) - 1).toNat]?
          else none) ∧
        ((parseSlotSelection "2" [slotA, slotB]).1.isSome ↔
          0 ≤ (('2'.toNat : Int) - 48) - 1 ∧
            (('2'.toNat : Int) - 48) - 1 < (([slotA, slotB] : List AppointmentSlot).length : Int))) :=
  ⟨rfl, rfl, parse_first_digit_char "2" [slotA, slotB] '2' [] rfl rfl⟩

/-- C1 (code bug): on the third unparsable selection the turn does move to
PRESENTING_SLOTS, but `_route_and_process` never invokes the
present-slots node, so the numbered list is NOT re-shown (the response is
the fixed "having trouble" sentence) and the attempt counter is left at 3
instead of being reset to zero — for any implementation of the external
nodes, since none of them is reached on this path. -/
theorem third_failed_selection_no_reset (nodes : NodeImpls) :
    (processMessage nodes "hello" ctxAwaitTwoFails).workflow_state = .presenting_slots ∧
      (processMessage nodes "hello" ctxAwaitTwoFails).slot_selection_attempts = 3 ∧
      (processMessage nodes "hello" ctxAwaitTwoFails).agent_response = some retryPresentResponse :=
  ⟨rfl, rfl, rfl⟩

/-- C3: for a durable context in FINDING_SLOTS, PRESENTING_SLOTS or ERROR
(the phases outside the dispatcher's handled set), `process_message`
discards the whole context and returns the fixed error-reset state. -/
theorem unroutable_phase_resets_context (nodes : NodeImpls) (userMessage : String)
    (ctx : OrchState)
    (h : ctx.workflow_state = .finding_slots ∨ ctx.workflow_state = .presenting_slots ∨
      ctx.workflow_state = .error) :
    processMessage nodes userMessage ctx = createErrorState "Unexpected workflow state" ∧
      (processMessage nodes userMessage ctx).workflow_state = .start ∧
      (processMessage nodes userMessage ctx).has_required_info = false ∧
      (processMessage nodes userMessage ctx).awaiting_confirmation = false ∧
      (processMessage nodes userMessage ctx).agent_response = some errorResetResponse ∧
      (processMessage nodes userMessage ctx).patient_info = none ∧
      (processMessage nodes userMessage ctx).conversation_history = none ∧
      (processMessage nodes userMessage ctx).available_slots = none ∧
      (processMessage nodes userMessage ctx).selected_slot = none ∧
      (processMessage nodes userMessage ctx).appointment_id = none := by
  have hp : processMessage nodes userMessage ctx = createErrorState "Unexpected workflow state" := by
    rcases h with h | h | h <;> simp [processMessage, routeAndProcess, initState, h]
  refine ⟨hp, ?_, ?_, ?_, ?_, ?_, ?_, ?_, ?_, ?_⟩ <;> rw [hp] <;> rfl

/-- Witness for C3 at a FINDING_SLOTS context. -/
theorem unroutable_phase_resets_context_witness :
    (ctxFindingSlots.workflow_state = .finding_slots ∨
      ctxFindingSlots.workflow_state = .presenting_slots ∨
      ctxFindingSlots.workflow_state = .error) ∧
      (processMessage idNodes "hi" ctxFindingSlots = createErrorState "Unexpected workflow state" ∧
        (processMessage idNodes "hi" ctxFindingSlots).workflow_state = .start ∧
        (processMessage idNodes "hi" ctxFindingSlots).has_required_info = false ∧
        (processMessage idNodes "hi" ctxFindingSlots).awaiting_confirmation = false ∧
        (processMessage idNodes "hi" ctxFindingSlots).agent_response = some errorResetResponse ∧
        (processMessage idNodes "hi" ctxFindingSlots).patient_info = none ∧
        (processMessage idNodes "hi" ctxFindingSlots).conversation_history = none ∧
        (processMessage idNodes "hi" ctxFindingSlots).available_slots = none ∧
        (processMessage idNodes "hi" ctxFindingSlots).selected_slot = none ∧
        (processMessage idNodes "hi" ctxFindingSlots).appointment_id = none) :=
  ⟨Or.inl rfl,
    unroutable_phase_resets_context idNodes "hi" ctxFindingSlots (Or.inl rfl)⟩

/-- C8 counterexample: a COMPLETED-phase turn does NOT leave
`appointment_id` unchanged — `_initialize_state` never carries it over, so
the returned context has no appointment id even though the incoming one
did. -/
theorem completed_drops_appointment_id :
    ctxCompletedBooked.appointment_id = some "appt-0" ∧
      (processMessage idNodes "thanks" ctxCompletedBooked).appointment_id = none :=
  ⟨rfl, rfl⟩

/-- C8 amended: a COMPLETED-phase turn returns the static already-booked
message and leaves `patient_info`, `available_slots` and `selected_slot`
unchanged, but `appointment_id` is dropped (absent from the returned
context) because the state initializer does not carry it over. -/
theorem completed_is_static_frame (nodes : NodeImpls) (userMessage : String)
    (ctx : OrchState) (pi : PatientInfo) (sl : List AppointmentSlot)
    (hws : ctx.workflow_state = .completed)
    (hpi : ctx.patient_info = some pi) (hsl : ctx.available_slots = some sl) :
    (processMessage nodes userMessage ctx).agent_response = some completedResponse ∧
      (processMessage nodes userMessage ctx).patient_info = some pi ∧
      (processMessage nodes userMessage ctx).available_slots = some sl ∧
      (processMessage nodes userMessage ctx).selected_slot = ctx.selected_slot ∧
      (processMessage nodes userMessage ctx).appointment_id = none := by
  refine ⟨?_, ?_, ?_, ?_, ?_⟩ <;>
    simp [processMessage, routeAndProcess, initState, hws, hpi, hsl]

/-- Witness for C8 amended at a concrete completed context. -/
theorem completed_is_static_frame_witness :
    (ctxCompletedBooked.workflow_state = .completed ∧
      ctxCompletedBooked.patient_info = some johnInfo ∧
      ctxCompletedBooked.available_slots = some [slotA]) ∧
      ((processMessage idNodes "thanks again" ctxCompletedBooked).agent_response =
          some completedResponse ∧
        (processMessage idNodes "thanks again" ctxCompletedBooked).patient_info = some johnInfo ∧
        (processMessage idNodes "thanks again" ctxCompletedBooked).available_slots = some [slotA] ∧
        (processMessage idNodes "thanks again" ctxCompletedBooked).selected_slot =
          ctxCompletedBooked.selected_slot ∧
        (processMessage idNodes "thanks again" ctxCompletedBooked).appointment_id = none) :=
  ⟨⟨rfl, rfl, rfl⟩,
    completed_is_static_frame idNodes "thanks again" ctxCompletedBooked johnInfo [slotA]
      rfl rfl rfl⟩

/-- C2 (code bug): in CONFIRMING a "yes" reply does create the appointment,
move to COMPLETED and record the appointment id — but the appointment is
left in status `scheduled`, NOT `confirmed`: `finalize_appointment` calls
the `update_appointment_status` coroutine without awaiting it, so the
update never executes.  The last conjunct shows what that skipped call
would have produced. -/
theorem finalize_leaves_status_scheduled :
    isConfirmationMsg (pyLowerStrip "yes") = true ∧
      (finalizeNode (fun _ => "booked") [drRao] [] ctxConfirmYes).2.workflow_state = .completed ∧
      (finalizeNode (fun _ => "booked") [drRao] [] ctxConfirmYes).2.appointment_id =
        some "appt-0" ∧
      (finalizeNode (fun _ => "booked") [drRao] [] ctxConfirmYes).1.map
          StoredAppointment.status = [.scheduled] ∧
      (updateAppointmentStatus ((finalizeNode (fun _ => "booked") [drRao] [] ctxConfirmYes).1)
          "appt-0" .confirmed).1.map StoredAppointment.status = [.confirmed] := by
  refine ⟨by decide, by decide, by decide, by decide, by decide⟩

/-- The open/close hour window is well formed. -/
theorem clinicHours_sum :
    CLINIC_OPEN_HOUR + (CLINIC_CLOSE_HOUR - CLINIC_OPEN_HOUR) = CLINIC_CLOSE_HOUR := rfl

/-- Membership in one day's slot list. -/
theorem mem_daySlots {store : Store} {doctorId doctorName : String} {d : Nat}
    {s : AppointmentSlot} :
    s ∈ daySlots store doctorId doctorName d ↔
      d % 7 < 5 ∧ ∃ h, CLINIC_OPEN_HOUR ≤ h ∧ h < CLINIC_CLOSE_HOUR ∧
        isSlotAvailable store d (60 * h) doctorId = true ∧
        s = mkClinicSlot doctorId doctorName d h := by
  unfold daySlots
  split
  case isTrue hw =>
    simp only [List.not_mem_nil, false_iff]
    rintro ⟨hlt, -⟩
    omega
  case isFalse hw =>
    have hw5 : d % 7 < 5 := by omega
    simp only [List.mem_map, List.mem_filter, List.mem_range'_1, clinicHours_sum, hw5, true_and]
    constructor
    · rintro ⟨h, ⟨⟨h1, h2⟩, h3⟩, rfl⟩
      exact ⟨h, h1, h2, h3, rfl⟩
    · rintro ⟨h, h1, h2, h3, rfl⟩
      exact ⟨h, ⟨⟨h1, h2⟩, h3⟩, rfl⟩

/-- Every slot produced for day `d` carries date `d`. -/
theorem daySlots_date {store : Store} {doctorId doctorName : String} {d : Nat}
    {s : AppointmentSlot} (hs : s ∈ daySlots store doctorId doctorName d) : s.date = d := by
  obtain ⟨-, h, -, -, -, rfl⟩ := mem_daySlots.mp hs
  rfl

/-- One day's slots are strictly increasing in start time. -/
theorem pairwise_daySlots (store : Store) (doctorId doctorName : String) (d : Nat) :
    List.Pairwise slotOrd (daySlots store doctorId doctorName d) := by
  unfold daySlots
  split
  · exact List.Pairwise.nil
  · refine List.pairwise_map.mpr ?_
    refine List.Pairwise.imp ?_
      ((List.pairwise_lt_range' CLINIC_OPEN_HOUR
        (CLINIC_CLOSE_HOUR - CLINIC_OPEN_HOUR)).filter _)
    intro h1 h2 hlt
    refine Or.inr ⟨rfl, ?_⟩
    show 60 * h1 < 60 * h2
    omega

/-- Membership in the full availability query. -/
theorem mem_getAvailableSlots {store : Store} {doctorId doctorName : String}
    {startDate numDays : Nat} {s : AppointmentSlot} :
    s ∈ getAvailableSlots store doctorId doctorName startDate numDays ↔
      ∃ off, off < numDays ∧ s ∈ daySlots store doctorId doctorName (startDate + off) := by
  unfold getAvailableSlots
  simp [List.mem_flatMap, List.mem_range]

/-- The availability query result is sorted ascending by (date, start
time). -/
theorem pairwise_getAvailableSlots (store : Store) (doctorId doctorName : String)
    (startDate numDays : Nat) :
    List.Pairwise slotOrd (getAvailableSlots store doctorId doctorName startDate numDays) := by
  unfold getAvailableSlots
  refine List.pairwise_flatMap.mpr ⟨fun off _ => pairwise_daySlots _ _ _ _, ?_⟩
  refine List.Pairwise.imp ?_ (List.pairwise_lt_range numDays)
  intro o1 o2 hlt x hx y hy
  left
  rw [daySlots_date hx, daySlots_date hy]
  omega

/-- C10: the slot resolver returns exactly the available whole-hour slots
on non-weekend days of the window (one per hour from the open hour up to
but excluding the close hour, omitting every slot with an existing
scheduled/confirmed appointment for that doctor), sorted ascending by
(date, start time). -/
theorem getAvailableSlots_spec (store : Store) (doctorId doctorName : String)
    (startDate numDays : Nat) :
    (∀ s, s ∈ getAvailableSlots store doctorId doctorName startDate numDays ↔
      ∃ off h, off < numDays ∧ (startDate + off) % 7 < 5 ∧
        CLINIC_OPEN_HOUR ≤ h ∧ h < CLINIC_CLOSE_HOUR ∧
        isSlotAvailable store (startDate + off) (60 * h) doctorId = true ∧
        s = mkClinicSlot doctorId doctorName (startDate + off) h) ∧
      List.Pairwise slotOrd (getAvailableSlots store doctorId doctorName startDate numDays) := by
  refine ⟨fun s => ?_, pairwise_getAvailableSlots store doctorId doctorName startDate numDays⟩
  rw [mem_getAvailableSlots]
  constructor
  · rintro ⟨off, hoff, hmem⟩
    obtain ⟨hw, h, h1, h2, h3, rfl⟩ := mem_daySlots.mp hmem
    exact ⟨off, h, hoff, hw, h1, h2, h3, rfl⟩
  · rintro ⟨off, h, hoff, hw, h1, h2, h3, rfl⟩
    exact ⟨off, hoff, mem_daySlots.mpr ⟨hw, h, h1, h2, h3, rfl⟩⟩

/-- A successful `create_appointment` leaves a scheduled appointment for
the requested (doctor, date, time) in the store. -/
theorem createAppointment_success_mem (store : Store) (pn pp : String) (d t : Nat)
    (doctorId dn rs : String)
    (hsucc : (createAppointment store pn pp d t doctorId dn rs).2.success = true) :
    ∃ a ∈ (createAppointment store pn pp d t doctorId dn rs).1,
      a.doctor_id = doctorId ∧ a.appointment_date = d ∧ a.appointment_time = t ∧
        a.status = .scheduled := by
  cases hav : isSlotAvailable store d t doctorId with
  | false => simp [createAppointment, hav] at hsucc
  | true =>
    have hst : (createAppointment store pn pp d t doctorId dn rs).1 =
        store ++ [{ appointment_id := "appt-" ++ toString (List.length store)
                    patient_name := pn
                    patient_phone := pp
                    appointment_date := d
                    appointment_time := t
                    doctor_id := doctorId
                    doctor_name := dn
                    reason := rs
                    status := .scheduled }] := by
      simp [createAppointment, hav]
    rw [hst]
    exact ⟨_, List.mem_append_right _ (List.mem_singleton_self _), rfl, rfl, rfl, rfl⟩

/-- A stored scheduled/confirmed appointment makes its slot unavailable. -/
theorem isSlotAvailable_false_of_booked {store : Store} {d t : Nat} {doctorId : String}
    (h : ∃ a ∈ store, a.doctor_id = doctorId ∧ a.appointment_date = d ∧
      a.appointment_time = t ∧ (a.status = .scheduled ∨ a.status = .confirmed)) :
    isSlotAvailable store d t doctorId = false := by
  obtain ⟨a, ha, h1, h2, h3, h4⟩ := h
  simp only [isSlotAvailable, Bool.not_eq_false', List.any_eq_true]
  refine ⟨a, ha, ?_⟩
  rcases h4 with h4 | h4 <;> simp [h1, h2, h3, h4]

/-- C6: after a successful booking for a doctor at (date, time), any
scheduled or confirmed appointment at the same key makes the slot
unavailable, so no subsequent availability query for that doctor returns a
slot at that (date, time). -/
theorem booking_excludes_booked_slot (store : Store) (pn pp : String) (d t : Nat)
    (doctorId dn rs nm : String) (startDate numDays : Nat) (s : AppointmentSlot)
    (hsucc : (createAppointment store pn pp d t doctorId dn rs).2.success = true)
    (hmem : s ∈ getAvailableSlots (createAppointment store pn pp d t doctorId dn rs).1
      doctorId nm startDate numDays) :
    isSlotAvailable (createAppointment store pn pp d t doctorId dn rs).1 d t doctorId = false ∧
      ¬(s.date = d ∧ s.start_time = t) := by
  have hfalse : isSlotAvailable (createAppointment store pn pp d t doctorId dn rs).1
      d t doctorId = false := by
    refine isSlotAvailable_false_of_booked ?_
    obtain ⟨a, ha, h1, h2, h3, h4⟩ := createAppointment_success_mem store pn pp d t
      doctorId dn rs hsucc
    exact ⟨a, ha, h1, h2, h3, Or.inl h4⟩
  refine ⟨hfalse, ?_⟩
  rintro ⟨hd, ht⟩
  obtain ⟨off, hoff, hday⟩ := mem_getAvailableSlots.mp hmem
  obtain ⟨hw, h, h1, h2, h3, hseq⟩ := mem_daySlots.mp hday
  have e1 : d = startDate + off := by rw [← hd, hseq]; rfl
  have e2 : t = 60 * h := by rw [← ht, hseq]; rfl
  rw [← e1, ← e2] at h3
  rw [h3] at hfalse
  simp at hfalse

/-- Witness for C6: booking day 7 at 09:00 succeeds on an empty store, the
10:00 slot of the same day is still offered, and neither it nor any other
returned slot is the booked one. -/
theorem booking_excludes_booked_slot_witness :
    ((createAppointment [] "Aisha" "9876543210" 7 540 "doc-1" "Dr. Rao" "rash").2.success
        = true) ∧
      (mkClinicSlot "doc-1" "Dr. Rao" 7 10 ∈
        getAvailableSlots (createAppointment [] "Aisha" "9876543210" 7 540 "doc-1"
          "Dr. Rao" "rash").1 "doc-1" "Dr. Rao" 7 1) ∧
      (isSlotAvailable (createAppointment [] "Aisha" "9876543210" 7 540 "doc-1"
          "Dr. Rao" "rash").1 7 540 "doc-1" = false ∧
        ¬((mkClinicSlot "doc-1" "Dr. Rao" 7 10).date = 7 ∧
          (mkClinicSlot "doc-1" "Dr. Rao" 7 10).start_time = 540)) :=
  ⟨by decide, by decide,
    booking_excludes_booked_slot [] "Aisha" "9876543210" 7 540 "doc-1" "Dr. Rao" "rash"
      "Dr. Rao" 7 1 (mkClinicSlot "doc-1" "Dr. Rao" 7 10) (by decide) (by decide)⟩

end BookaDoc
